import Mathlib

/-
Verification of the argument-contract layer of
`mindspore/dataset/text/validators.py`.

The guards are shallowly embedded as pure Lean functions over a model of
Python runtime values (`PyVal`).  Each guard takes the already-bound
argument bundle (the source binds arguments via `parse_user_args`, which
is out of scope per the spec) and returns `Except Violation β`: `.error`
models a raised `TypeError`/`ValueError` and `.ok` models forwarding the
bundle to the wrapped operation.

The primitive checking helpers (`type_check`, `type_check_list`,
`check_value`, `check_positive`, `check_uint32`, `INT32_MAX`) live in
`mindspore/dataset/core/validator_helpers.py`, which is not part of the
sources at hand; they are modelled from the spec, which describes them as
trusted primitives for type membership, inclusive integer ranges and
positivity, with messages naming the offending parameter.
-/

namespace TextValidators

/-- Model of the Python runtime values the guards inspect. -/
inductive PyVal where
  | vstr (s : String)
  | vint (n : Int)
  | vbool (b : Bool)
  | vnone
  | vlist (xs : List PyVal)
  | vtuple (xs : List PyVal)
  | vvocab
  deriving Repr

/-- The Python `value is None` test. -/
def isNone : PyVal → Bool
  | .vnone => true
  | _ => false

/-- The Python type tags appearing in the isinstance checks of the guards. -/
inductive PyType where
  | str
  | int
  | bool
  | list
  | tuple
  | noneT
  | vocabT
  deriving DecidableEq, Repr

/-- Python `isinstance`; in Python, `bool` is a subclass of `int`, so a
boolean value is an instance of `int` as well. -/
def isInst : PyVal → PyType → Bool
  | .vstr _, .str => true
  | .vint _, .int => true
  | .vbool _, .int => true
  | .vbool _, .bool => true
  | .vnone, .noneT => true
  | .vlist _, .list => true
  | .vtuple _, .tuple => true
  | .vvocab, .vocabT => true
  | _, _ => false

/-- The numeric value of a Python value, when it is an `int` in the Python
sense (`True` counts as 1, `False` as 0); `none` for non-numbers. -/
def pyToNum : PyVal → Option Int
  | .vint n => some n
  | .vbool b => some (if b then 1 else 0)
  | _ => none

/-- Python `str()` of a value, as far as the messages of the guards need it. -/
def pyStr : PyVal → String
  | .vstr s => s
  | .vint n => toString n
  | .vbool true => "True"
  | .vbool false => "False"
  | .vnone => "None"
  | .vlist _ => "[...]"
  | .vtuple _ => "(...)"
  | .vvocab => "Vocab"

/-- A raised validation failure: `TypeError` or `ValueError` with its
message. -/
inductive Violation where
  | typeViolation (msg : String)
  | valueViolation (msg : String)
  deriving DecidableEq, Repr

/-- The message `type_check` raises, which names the argument it was
given as `arg_name`. -/
def typeCheckMsg (arg_name : String) : String :=
  "Argument " ++ arg_name ++ " with value is not of the expected type."

/-- Modelled from the spec: the primitive type-membership checker
`type_check` of `validator_helpers` (not among the sources); raises a
`TypeError` whose message contains the `arg_name` it was handed when the
value is an instance of none of the allowed types. -/
def type_check (arg : PyVal) (types : List PyType) (arg_name : String) :
    Except Violation Unit :=
  if types.any (fun t => isInst arg t) then .ok ()
  else .error (.typeViolation (typeCheckMsg arg_name))

/-- Modelled from the spec: `type_check_list` of `validator_helpers` (not
among the sources); applies `type_check` to parallel lists of values and
argument names, failing on the first offender. -/
def type_check_list (args : List (PyVal × String)) (types : List PyType) :
    Except Violation Unit :=
  match args with
  | [] => .ok ()
  | (a, nm) :: rest =>
    match type_check a types nm with
    | .error e => .error e
    | .ok _ => type_check_list rest types

/-- Largest 32-bit signed integer, as exported by `validator_helpers`. -/
def INT32_MAX : Int := 2147483647

/-- Largest 32-bit unsigned integer. -/
def UINT32_MAX : Int := 4294967295

/-- Modelled from the spec: `check_value` of `validator_helpers` (not
among the sources); raises a `ValueError` naming the argument when the
number lies outside the inclusive range, and a `TypeError` when the value
is not a number at all (the Python comparison would raise it). -/
def check_value (value : PyVal) (lo hi : Int) (arg_name : String) :
    Except Violation Unit :=
  match pyToNum value with
  | none => .error (.typeViolation (typeCheckMsg arg_name))
  | some v =>
    if v < lo || v > hi then
      .error (.valueViolation ("Input " ++ arg_name ++
        " is not within the required interval of (" ++ toString lo ++
        " to " ++ toString hi ++ ")."))
    else .ok ()

/-- Modelled from the spec: `check_positive` of `validator_helpers` (not
among the sources); raises a `ValueError` naming the argument when the
number is not strictly positive. -/
def check_positive (value : PyVal) (arg_name : String) :
    Except Violation Unit :=
  match pyToNum value with
  | none => .error (.typeViolation (typeCheckMsg arg_name))
  | some v =>
    if v ≤ 0 then
      .error (.valueViolation ("Input " ++ arg_name ++
        " must be greater than 0."))
    else .ok ()

/-- Modelled from the spec: `check_uint32` of `validator_helpers` (not
among the sources); per the spec the value must be a non-negative 32-bit
integer, so a value outside [0, UINT32_MAX] raises a `ValueError` and a
non-integer raises a `TypeError`. -/
def check_uint32 (value : PyVal) : Except Violation Unit :=
  match pyToNum value with
  | none => .error (.typeViolation (typeCheckMsg "value"))
  | some v =>
    if v < 0 || v > UINT32_MAX then
      .error (.valueViolation
        ("Input value is not within the required interval of (0 to " ++
          toString UINT32_MAX ++ ")."))
    else .ok ()

/-- The loop body of `check_unique_list_of_words`: walk the word list,
type-checking each element as `str` and failing on the first word already
seen; `words_set` accumulates the seen words (source: a Python set, here
a duplicate-free list in insertion order). -/
def uniqueWordsLoop (arg_name : String) :
    List PyVal → List String → Except Violation (List String)
  | [], words_set => .ok words_set
  | word :: rest, words_set =>
    match word with
    | .vstr s =>
      if s ∈ words_set then
        .error (.valueViolation
          (arg_name ++ " contains duplicate word: " ++ s ++ "."))
      else uniqueWordsLoop arg_name rest (words_set ++ [s])
    | _ => .error (.typeViolation (typeCheckMsg arg_name))

/-- `check_unique_list_of_words(words, arg_name)` (validators.py lines
29-39): the argument must be a list of strings without duplicates; the
seen-set is returned. -/
def check_unique_list_of_words (words : PyVal) (arg_name : String) :
    Except Violation (List String) :=
  match words with
  | .vlist xs => uniqueWordsLoop arg_name xs []
  | _ => .error (.typeViolation (typeCheckMsg arg_name))

/-- Python `str()` of a non-empty set of strings, rendered in the
iteration order of our set model (insertion order). -/
def renderSet (xs : List String) : String :=
  match xs with
  | [] => "set()"
  | _ =>
    "\x7b" ++ String.intercalate ", "
      (xs.map (fun s => "\x27" ++ s ++ "\x27")) ++ "\x7d"

/-- `check_from_list` (validators.py lines 78-98): `word_list` must be a
duplicate-free list of strings; `special_tokens`, when not None, likewise
and disjoint from `word_list` (the error cites the intersection);
`special_first` must be a boolean.  The bundle is forwarded unchanged. -/
def check_from_list (word_list special_tokens special_first : PyVal) :
    Except Violation Unit :=
  match check_unique_list_of_words word_list "word_list" with
  | .error e => .error e
  | .ok word_set =>
    match special_tokens with
    | .vnone =>
      type_check special_first [PyType.bool] "special_first"
    | st =>
      match check_unique_list_of_words st "special_tokens" with
      | .error e => .error e
      | .ok token_set =>
        let intersect := word_set.filter (fun w => w ∈ token_set)
        if intersect ≠ [] then
          .error (.valueViolation
            ("special_tokens and word_list contain duplicate word :" ++
              renderSet intersect ++ "."))
        else
          type_check special_first [PyType.bool] "special_first"

/-- `check_from_file` (validators.py lines 59-75): `special_tokens`, when
not None, must be a duplicate-free list of strings; `file_path` and
`delimiter` must be strings; `vocab_size`, when not None, must lie in
[-1, INT32_MAX]; finally `type_check(special_first, (bool,),
special_first)` — the source passes the VALUE of `special_first`, not the
string "special_first", as the arg_name. -/
def check_from_file
    (file_path delimiter vocab_size special_tokens special_first : PyVal) :
    Except Violation Unit :=
  match (if !(isNone special_tokens)
         then check_unique_list_of_words special_tokens "special_tokens"
         else .ok []) with
  | .error e => .error e
  | .ok _ =>
    match type_check_list
        [(file_path, "file_path"), (delimiter, "delimiter")] [PyType.str] with
    | .error e => .error e
    | .ok _ =>
      match (if !(isNone vocab_size)
             then check_value vocab_size (-1) INT32_MAX "vocab_size"
             else .ok ()) with
      | .error e => .error e
      | .ok _ => type_check special_first [PyType.bool] (pyStr special_first)

/-- `check_jieba_add_word` (validators.py lines 141-153): `word` must not
be None (nothing else about it is checked); `freq`, when not None, is
checked by `check_uint32`. -/
def check_jieba_add_word (word freq : PyVal) : Except Violation Unit :=
  if isNone word then
    .error (.valueViolation "word is not provided.")
  else if !(isNone freq) then
    check_uint32 freq
  else
    .ok ()

/-- The argument bundle of `Vocab.from_dataset` inspected by
`check_from_dataset`; the leading `dataset` parameter is ignored by the
guard (bound to `_` in the source). -/
structure FromDatasetArgs where
  columns : PyVal
  freq_range : PyVal
  top_k : PyVal
  special_tokens : PyVal
  special_first : PyVal
  deriving Repr

/-- The columns stage of `check_from_dataset` (validators.py lines
297-301): when `columns` is not None and not a list, it is wrapped into
`[columns]`, the names `col_0`, ... are generated, and `type_check_list`
runs — all inside the not-a-list branch, so a list-valued `columns` has
its elements left unchecked, and the wrapped local is discarded. -/
def columnsCheck (columns : PyVal) : Except Violation Unit :=
  match columns with
  | .vnone => .ok ()
  | .vlist _ => .ok ()
  | c => type_check_list [(c, "col_0")] [PyType.str]

/-- The freq_range stage of `check_from_dataset` (validators.py lines
303-316): when not None, it must be a tuple, of length 2, whose elements
are each None or int; when both elements are ints, `0 ≤ low ≤ high` must
hold. -/
def freqRangeCheck : PyVal → Except Violation Unit
  | .vnone => .ok ()
  | .vtuple [a, b] =>
    if (!(isNone a) && !(isInst a PyType.int)) ||
       (!(isNone b) && !(isInst b PyType.int)) then
      .error (.valueViolation
        ("freq_range needs to be either None or a tuple of 2 integers" ++
          " or an int and a None."))
    else
      match pyToNum a, pyToNum b with
      | some x, some y =>
        if x > y || x < 0 then
          .error (.valueViolation
            "frequency range [a,b] should be 0 <= a <= b (a,b are inclusive).")
        else .ok ()
      | _, _ => .ok ()
  | .vtuple _ =>
    .error (.valueViolation
      "freq_range needs to be a tuple of 2 integers or an int and a None.")
  | _ => .error (.typeViolation (typeCheckMsg "freq_range"))

/-- `check_from_dataset` (validators.py lines 289-329): columns stage,
freq_range stage, `top_k` int-or-None and positive when int,
`special_first` boolean, `special_tokens` a duplicate-free word list when
not None.  The original bundle is forwarded unchanged (the source calls
`method(self, *args, **kwargs)` with the original caller arguments; the locally
rewritten `columns` never reaches it). -/
def check_from_dataset (a : FromDatasetArgs) :
    Except Violation FromDatasetArgs :=
  match columnsCheck a.columns with
  | .error e => .error e
  | .ok _ =>
    match freqRangeCheck a.freq_range with
    | .error e => .error e
    | .ok _ =>
      match type_check a.top_k [PyType.int, PyType.noneT] "top_k" with
      | .error e => .error e
      | .ok _ =>
        match (if isInst a.top_k PyType.int
               then check_positive a.top_k "top_k"
               else .ok ()) with
        | .error e => .error e
        | .ok _ =>
          match type_check a.special_first [PyType.bool] "special_first" with
          | .error e => .error e
          | .ok _ =>
            match (if !(isNone a.special_tokens)
                   then check_unique_list_of_words a.special_tokens
                     "special_tokens"
                   else .ok []) with
            | .error e => .error e
            | .ok _ => .ok a

/-- The argument bundle of the n-gram operation inspected by
`check_ngram`. -/
structure NgramArgs where
  n : PyVal
  left_pad : PyVal
  right_pad : PyVal
  separator : PyVal
  deriving Repr

/-- The gram loop of `check_ngram` (validators.py lines 345-347): each
gram is type-checked as int and checked positive, with indexed argument
names. -/
def gramsCheck : List PyVal → Nat → Except Violation Unit
  | [], _ => .ok ()
  | gram :: rest, i =>
    match type_check gram [PyType.int] ("gram[" ++ toString i ++ "]") with
    | .error e => .error e
    | .ok _ =>
      match check_positive gram ("gram_" ++ toString i) with
      | .error e => .error e
      | .ok _ => gramsCheck rest (i + 1)

/-- Message of the left_pad shape error in `check_ngram`. -/
def leftPadMsg : String :=
  "left_pad needs to be a tuple of (str, int) str is pad token and int is pad_width."

/-- Message of the right_pad shape error in `check_ngram`. -/
def rightPadMsg : String :=
  "right_pad needs to be a tuple of (str, int) str is pad token and int is pad_width."

/-- The pad shape test of `check_ngram` (validators.py lines 349-355): a
pad must be a 2-tuple whose first component is a str and second an
int. -/
def padCheck (pad : PyVal) (msg : String) : Except Violation Unit :=
  match pad with
  | .vtuple [.vstr _, p] =>
    if isInst p PyType.int then .ok ()
    else .error (.valueViolation msg)
  | _ => .error (.valueViolation msg)

/-- The width component of a pad that already passed `padCheck`. -/
def padWidth : PyVal → Int
  | .vtuple [_, p] => (pyToNum p).getD 0
  | _ => 0

/-- `check_ngram` (validators.py lines 332-369): a single int `n` is
normalized to `[n]`; `n` must then be a non-empty list of positive ints;
`left_pad` and `right_pad` must be (str, int) 2-tuples with non-negative
widths; `separator` must be a str.  The normalized `n` and the checked
`left_pad`, `right_pad`, `separator` are written back into the kwargs
bundle handed to the wrapped operation. -/
def check_ngram (a : NgramArgs) : Except Violation NgramArgs :=
  match (if isInst a.n PyType.int then PyVal.vlist [a.n] else a.n) with
  | .vlist (g :: gs) =>
    (match gramsCheck (g :: gs) 0 with
     | .error e => .error e
     | .ok _ =>
       match padCheck a.left_pad leftPadMsg with
       | .error e => .error e
       | .ok _ =>
         match padCheck a.right_pad rightPadMsg with
         | .error e => .error e
         | .ok _ =>
           if !(padWidth a.left_pad ≥ 0 && padWidth a.right_pad ≥ 0) then
             .error (.valueViolation "padding width need to be positive numbers.")
           else
             match type_check a.separator [PyType.str] "separator" with
             | .error e => .error e
             | .ok _ =>
               .ok ⟨PyVal.vlist (g :: gs), a.left_pad, a.right_pad,
                 a.separator⟩)
  | _ =>
    .error (.valueViolation "n needs to be a non-empty list of positive integers.")

/-- `check_wordpiece_tokenizer` (validators.py lines 195-215): `vocab`
must be provided and a Vocab; `suffix_indicator` and `unknown_token` must
be strings; `with_offsets` boolean; finally `max_bytes_per_token` is
checked by `check_uint32`. -/
def check_wordpiece_tokenizer
    (vocab suffix_indicator max_bytes_per_token unknown_token
      with_offsets : PyVal) : Except Violation Unit :=
  if isNone vocab then
    .error (.valueViolation "vocab is not provided.")
  else if !(isInst vocab PyType.vocabT) then
    .error (.typeViolation "Wrong input type for vocab, should be Vocab object.")
  else if !(isInst suffix_indicator PyType.str) then
    .error (.typeViolation "Wrong input type for suffix_indicator, should be string.")
  else if !(isInst unknown_token PyType.str) then
    .error (.typeViolation "Wrong input type for unknown_token, should be string.")
  else if !(isInst with_offsets PyType.bool) then
    .error (.typeViolation "Wrong input type for with_offsets, should be boolean.")
  else
    check_uint32 max_bytes_per_token

/-- Specification helper for the uniqueness loop: the first word of the
list that repeats an earlier word or a word of `seen`. -/
def firstDupFrom : List String → List String → Option String
  | [], _ => none
  | w :: rest, seen =>
    if w ∈ seen then some w else firstDupFrom rest (seen ++ [w])

/-- Whether `needle` is a prefix of `hay` (character lists). -/
def startsWithL : List Char → List Char → Bool
  | _, [] => true
  | [], _ :: _ => false
  | a :: as, b :: bs => a == b && startsWithL as bs

/-- Whether `needle` occurs inside `hay` (character lists). -/
def containsL (hay needle : List Char) : Bool :=
  match hay with
  | [] => needle.isEmpty
  | _ :: rest => startsWithL hay needle || containsL rest needle

/-- Whether the string `needle` occurs inside the string `hay`. -/
def strContains (hay needle : String) : Bool :=
  containsL hay.toList needle.toList

theorem uniqueWordsLoop_strings (nm : String) (ws : List String) :
    ∀ acc : List String,
    uniqueWordsLoop nm (ws.map PyVal.vstr) acc =
      match firstDupFrom ws acc with
      | some w => Except.error (Violation.valueViolation
          (nm ++ " contains duplicate word: " ++ w ++ "."))
      | none => Except.ok (acc ++ ws) := by
  induction ws with
  | nil => intro acc; simp [uniqueWordsLoop, firstDupFrom]
  | cons w rest ih =>
    intro acc
    simp only [List.map, uniqueWordsLoop, firstDupFrom]
    by_cases h : w ∈ acc
    · simp [h]
    · rw [if_neg h, if_neg h, ih (acc ++ [w])]
      cases firstDupFrom rest (acc ++ [w]) with
      | some d => rfl
      | none => simp

theorem check_unique_strings (nm : String) (ws : List String) :
    check_unique_list_of_words (PyVal.vlist (ws.map PyVal.vstr)) nm =
      match firstDupFrom ws [] with
      | some w => Except.error (Violation.valueViolation
          (nm ++ " contains duplicate word: " ++ w ++ "."))
      | none => Except.ok ws := by
  rw [check_unique_list_of_words, uniqueWordsLoop_strings]
  simp

theorem firstDupFrom_eq_none (ws : List String) :
    ∀ seen : List String,
    firstDupFrom ws seen = none ↔ ws.Nodup ∧ ∀ x ∈ ws, x ∉ seen := by
  induction ws with
  | nil => intro seen; simp [firstDupFrom]
  | cons w rest ih =>
    intro seen
    rw [firstDupFrom]
    by_cases h : w ∈ seen
    · simp [h]
    · rw [if_neg h, ih (seen ++ [w])]
      constructor
      · rintro ⟨hnd, hall⟩
        have hwrest : w ∉ rest := fun hw => by
          have := hall w hw
          simp at this
        refine ⟨List.nodup_cons.mpr ⟨hwrest, hnd⟩, ?_⟩
        intro x hx
        rcases List.mem_cons.mp hx with rfl | hx
        · exact h
        · have := hall x hx
          simp at this
          exact this.1
      · rintro ⟨hnd, hall⟩
        obtain ⟨hwrest, hnd⟩ := List.nodup_cons.mp hnd
        refine ⟨hnd, ?_⟩
        intro x hx
        simp only [List.mem_append, List.mem_singleton]
        push_neg
        refine ⟨hall x (List.mem_cons_of_mem _ hx), ?_⟩
        intro hxw
        exact hwrest (hxw ▸ hx)

theorem firstDupFrom_some (ws : List String) :
    ∀ (seen : List String) (w : String),
    firstDupFrom ws seen = some w →
    w ∈ ws ∧ (w ∈ seen ∨ 2 ≤ ws.count w) := by
  induction ws with
  | nil => intro seen w h; simp [firstDupFrom] at h
  | cons a rest ih =>
    intro seen w h
    rw [firstDupFrom] at h
    by_cases ha : a ∈ seen
    · rw [if_pos ha] at h
      cases h
      exact ⟨List.mem_cons_self a rest, Or.inl ha⟩
    · rw [if_neg ha] at h
      obtain ⟨hmem, hcase⟩ := ih (seen ++ [a]) w h
      refine ⟨List.mem_cons_of_mem a hmem, ?_⟩
      rcases hcase with hseen | hcount
      · rcases List.mem_append.mp hseen with hs | hw
        · exact Or.inl hs
        · have hwa : w = a := by simpa using hw
          subst hwa
          right
          have hpos : 0 < rest.count w := List.count_pos_iff.mpr hmem
          rw [List.count_cons_self]
          omega
      · right
        rw [List.count_cons]
        omega

/-- Claim C1: in `check_from_list`, a word list containing a duplicate
entry raises a `ValueError` citing the duplicated word, independently of
`special_tokens` and `special_first` (so before those checks run); a
duplicate-free word list and a duplicate-free special-token list with a
non-empty intersection raise a `ValueError` citing the intersection,
independently of `special_first`; and when the two lists are
duplicate-free and disjoint and `special_first` is a boolean, validation
passes. -/
theorem claim_C1 :
    (∀ ws : List String, ¬ ws.Nodup →
      ∃ w, 2 ≤ ws.count w ∧ ∀ st sf : PyVal,
        check_from_list (.vlist (ws.map .vstr)) st sf =
          .error (.valueViolation
            ("word_list contains duplicate word: " ++ w ++ "."))) ∧
    (∀ ws ts : List String, ws.Nodup → ts.Nodup →
      (∃ x, x ∈ ws ∧ x ∈ ts) → ∀ sf : PyVal,
        check_from_list (.vlist (ws.map .vstr)) (.vlist (ts.map .vstr)) sf =
          .error (.valueViolation
            ("special_tokens and word_list contain duplicate word :" ++
              renderSet (ws.filter (fun w => w ∈ ts)) ++ "."))) ∧
    (∀ ws ts : List String, ws.Nodup → ts.Nodup →
      (∀ x ∈ ws, x ∉ ts) → ∀ b : Bool,
        check_from_list (.vlist (ws.map .vstr)) (.vlist (ts.map .vstr))
          (.vbool b) = .ok ()) := by
  refine ⟨?_, ?_, ?_⟩
  · intro ws hnd
    have hne : firstDupFrom ws [] ≠ none := by
      intro hn
      exact hnd ((firstDupFrom_eq_none ws []).mp hn).1
    obtain ⟨w, hw⟩ := Option.ne_none_iff_exists'.mp hne
    obtain ⟨hmem, hcase⟩ := firstDupFrom_some ws [] w hw
    have hcount : 2 ≤ ws.count w := by
      rcases hcase with hs | hc
      · simp at hs
      · exact hc
    refine ⟨w, hcount, ?_⟩
    intro st sf
    simp only [check_from_list]
    rw [check_unique_strings, hw]
    rfl
  · intro ws ts hws hts hint sf
    have hws0 : firstDupFrom ws [] = none :=
      (firstDupFrom_eq_none ws []).mpr ⟨hws, by simp⟩
    have hts0 : firstDupFrom ts [] = none :=
      (firstDupFrom_eq_none ts []).mpr ⟨hts, by simp⟩
    have hne : ws.filter (fun w => w ∈ ts) ≠ [] := by
      obtain ⟨x, hxw, hxt⟩ := hint
      intro hnil
      rw [List.filter_eq_nil_iff] at hnil
      exact (hnil x hxw) (by simpa using hxt)
    simp only [check_from_list]
    rw [check_unique_strings, hws0]
    simp only []
    rw [check_unique_strings, hts0]
    simp [hne]
  · intro ws ts hws hts hdisj b
    have hws0 : firstDupFrom ws [] = none :=
      (firstDupFrom_eq_none ws []).mpr ⟨hws, by simp⟩
    have hts0 : firstDupFrom ts [] = none :=
      (firstDupFrom_eq_none ts []).mpr ⟨hts, by simp⟩
    have hnil : ws.filter (fun w => w ∈ ts) = [] :=
      List.filter_eq_nil_iff.mpr (fun x hx => by simpa using hdisj x hx)
    simp only [check_from_list]
    rw [check_unique_strings, hws0]
    simp only []
    rw [check_unique_strings, hts0]
    simp [hnil, type_check, isInst]

/-- Witness for claim C1, at the word lists of the examples in the spec. -/
theorem claim_C1_witness :
    (∃ w, 2 ≤ List.count w ["a", "b", "a"] ∧ ∀ st sf : PyVal,
      check_from_list (.vlist ((["a", "b", "a"]).map .vstr)) st sf =
        .error (.valueViolation
          ("word_list contains duplicate word: " ++ w ++ "."))) ∧
    check_from_list (.vlist ((["a", "b"]).map .vstr))
        (.vlist ((["b", "c"]).map .vstr)) (.vbool true) =
      .error (.valueViolation
        ("special_tokens and word_list contain duplicate word :" ++
          renderSet ((["a", "b"]).filter (fun w => w ∈ ["b", "c"])) ++ ".")) ∧
    check_from_list (.vlist ((["a", "b"]).map .vstr))
        (.vlist ((["c", "d"]).map .vstr)) (.vbool true) = .ok () :=
  ⟨claim_C1.1 ["a", "b", "a"] (by decide),
    claim_C1.2.1 ["a", "b"] ["b", "c"] (by decide) (by decide)
      ⟨"b", by decide, by decide⟩ (.vbool true),
    claim_C1.2.2 ["a", "b"] ["c", "d"] (by decide) (by decide)
      (by decide) true⟩

/-- Claim C2: in `check_from_file` with valid remaining arguments, an
integer `vocab_size` is accepted exactly when it lies in the inclusive
range [-1, INT32_MAX]; in particular -2 and INT32_MAX + 1 raise a
`ValueError` while -1 and INT32_MAX pass. -/
theorem claim_C2 :
    (∀ v : Int,
      check_from_file (.vstr "vocab.txt") (.vstr ",") (.vint v) .vnone
          (.vbool true) = .ok () ↔ -1 ≤ v ∧ v ≤ INT32_MAX) ∧
    check_from_file (.vstr "vocab.txt") (.vstr ",") (.vint (-2)) .vnone
        (.vbool true) =
      .error (.valueViolation
        "Input vocab_size is not within the required interval of (-1 to 2147483647).") ∧
    check_from_file (.vstr "vocab.txt") (.vstr ",") (.vint (-1)) .vnone
        (.vbool true) = .ok () ∧
    check_from_file (.vstr "vocab.txt") (.vstr ",") (.vint INT32_MAX) .vnone
        (.vbool true) = .ok () ∧
    check_from_file (.vstr "vocab.txt") (.vstr ",")
        (.vint (INT32_MAX + 1)) .vnone (.vbool true) =
      .error (.valueViolation
        "Input vocab_size is not within the required interval of (-1 to 2147483647).") := by
  refine ⟨?_, by rfl, by rfl, by rfl, by rfl⟩
  intro v
  constructor
  · intro h
    by_cases h1 : v < -1
    · simp [check_from_file, check_value, pyToNum, isNone, type_check_list,
        type_check, isInst, pyStr, h1] at h
    · by_cases h2 : v > INT32_MAX
      · simp [check_from_file, check_value, pyToNum, isNone, type_check_list,
          type_check, isInst, pyStr, h1, h2] at h
      · exact ⟨not_lt.mp h1, not_lt.mp h2⟩
  · rintro ⟨ha, hb⟩
    simp [check_from_file, check_value, pyToNum, isNone, type_check_list,
      type_check, isInst, pyStr, not_lt.mpr ha, not_lt.mpr hb]

/-- Claim C4: in `check_ngram`, `n = 3` is normalized to `[3]` and
passes, with the normalized `n` together with the pads and separator
written back into the forwarded bundle; `n = [2, 0]` raises a
`ValueError` (non-positive gram); `n = []` raises a `ValueError`;
`left_pad = ("<s>", -1)` raises (negative width); `left_pad = ("<s>", 2)`
passes. -/
theorem claim_C4 :
    check_ngram ⟨.vint 3, .vtuple [.vstr "<s>", .vint 2],
        .vtuple [.vstr "</s>", .vint 1], .vstr "-"⟩ =
      .ok ⟨.vlist [.vint 3], .vtuple [.vstr "<s>", .vint 2],
        .vtuple [.vstr "</s>", .vint 1], .vstr "-"⟩ ∧
    check_ngram ⟨.vlist [.vint 2, .vint 0], .vtuple [.vstr "<s>", .vint 2],
        .vtuple [.vstr "</s>", .vint 1], .vstr "-"⟩ =
      .error (.valueViolation "Input gram_1 must be greater than 0.") ∧
    check_ngram ⟨.vlist [], .vtuple [.vstr "<s>", .vint 2],
        .vtuple [.vstr "</s>", .vint 1], .vstr "-"⟩ =
      .error (.valueViolation
        "n needs to be a non-empty list of positive integers.") ∧
    check_ngram ⟨.vint 3, .vtuple [.vstr "<s>", .vint (-1)],
        .vtuple [.vstr "</s>", .vint 1], .vstr "-"⟩ =
      .error (.valueViolation "padding width need to be positive numbers.") ∧
    check_ngram ⟨.vint 3, .vtuple [.vstr "<s>", .vint 2],
        .vtuple [.vstr "</s>", .vint 1], .vstr "-"⟩ =
      .ok ⟨.vlist [.vint 3], .vtuple [.vstr "<s>", .vint 2],
        .vtuple [.vstr "</s>", .vint 1], .vstr "-"⟩ :=
  ⟨rfl, rfl, rfl, rfl, rfl⟩

/-- Claim C6 (failing evaluation): `check_from_file` rejects a
non-boolean `special_first` with a message built from the VALUE of
`special_first` — the source passes the value, not the string
"special_first", as the arg_name — so the message does not identify the
parameter name, while the name-passing call used elsewhere would. -/
theorem claim_C6_eval :
    check_from_file (.vstr "vocab.txt") (.vstr ",") .vnone .vnone
        (.vint 5) = .error (.typeViolation (typeCheckMsg "5")) ∧
    strContains (typeCheckMsg "5") "special_first" = false ∧
    strContains (typeCheckMsg "special_first") "special_first" = true :=
  ⟨rfl, rfl, rfl⟩

/-- Claim C7: in `check_from_list`, when the word-list predicate fails,
the raised violation is exactly that failure whatever `special_tokens`
and `special_first` hold — no later predicate runs and the wrapped
operation is never invoked (the guard never returns `.ok`). -/
theorem claim_C7 (wl : PyVal) (e : Violation)
    (h : check_unique_list_of_words wl "word_list" = .error e)
    (st sf : PyVal) :
    check_from_list wl st sf = .error e := by
  simp only [check_from_list]
  rw [h]

/-- Witness for claim C7: a duplicated word list raises its violation
even when `special_tokens` and `special_first` are themselves invalid. -/
theorem claim_C7_witness :
    check_from_list (.vlist [.vstr "a", .vstr "b", .vstr "a"])
        (.vint 0) (.vint 1) =
      .error (.valueViolation "word_list contains duplicate word: a.") :=
  claim_C7 (.vlist [.vstr "a", .vstr "b", .vstr "a"]) _ rfl
    (.vint 0) (.vint 1)

/-- Claim C10: in `check_jieba_add_word`, `word` is only checked to be
non-None — any non-None value (an int, a list, ...) passes and is
forwarded — while `freq`, when present, is checked by `check_uint32`. -/
theorem claim_C10 :
    (∀ w : PyVal, isNone w = false →
      check_jieba_add_word w .vnone = .ok ()) ∧
    check_jieba_add_word (.vint 5) .vnone = .ok () ∧
    check_jieba_add_word (.vlist [.vstr "x"]) .vnone = .ok () ∧
    check_jieba_add_word .vnone .vnone =
      .error (.valueViolation "word is not provided.") ∧
    (∀ w f : PyVal, isNone w = false → isNone f = false →
      check_jieba_add_word w f = check_uint32 f) := by
  refine ⟨?_, rfl, rfl, rfl, ?_⟩
  · intro w hw
    simp only [check_jieba_add_word, hw]
    rfl
  · intro w f hw hf
    simp only [check_jieba_add_word, hw, hf]
    rfl

/-- Witness for claim C10: a tuple-valued `word` passes, and with an int
`word` the outcome of the guard is exactly `check_uint32 freq`. -/
theorem claim_C10_witness :
    check_jieba_add_word (.vtuple []) .vnone = .ok () ∧
    check_jieba_add_word (.vint 3) (.vint (-1)) = check_uint32 (.vint (-1)) :=
  ⟨claim_C10.1 (.vtuple []) rfl,
    claim_C10.2.2.2.2 (.vint 3) (.vint (-1)) rfl rfl⟩

/-- Claim C3: in `check_from_dataset` with valid remaining arguments, a
freq_range of (5, 2) raises a `ValueError` (low > high), (-1, 5) raises
(negative low), (2, 5) passes, (None, 5) passes (open lower bound); a
freq_range that is not a 2-tuple also fails, as does one with an element
that is neither None nor an int. -/
theorem claim_C3 :
    check_from_dataset ⟨.vnone, .vtuple [.vint 5, .vint 2], .vnone, .vnone,
        .vbool true⟩ =
      .error (.valueViolation
        "frequency range [a,b] should be 0 <= a <= b (a,b are inclusive).") ∧
    check_from_dataset ⟨.vnone, .vtuple [.vint (-1), .vint 5], .vnone,
        .vnone, .vbool true⟩ =
      .error (.valueViolation
        "frequency range [a,b] should be 0 <= a <= b (a,b are inclusive).") ∧
    check_from_dataset ⟨.vnone, .vtuple [.vint 2, .vint 5], .vnone, .vnone,
        .vbool true⟩ =
      .ok ⟨.vnone, .vtuple [.vint 2, .vint 5], .vnone, .vnone,
        .vbool true⟩ ∧
    check_from_dataset ⟨.vnone, .vtuple [.vnone, .vint 5], .vnone, .vnone,
        .vbool true⟩ =
      .ok ⟨.vnone, .vtuple [.vnone, .vint 5], .vnone, .vnone,
        .vbool true⟩ ∧
    (∀ xs : List PyVal, xs.length ≠ 2 →
      check_from_dataset ⟨.vnone, .vtuple xs, .vnone, .vnone,
          .vbool true⟩ =
        .error (.valueViolation
          "freq_range needs to be a tuple of 2 integers or an int and a None.")) ∧
    (∀ a b : PyVal,
      (isNone a = false ∧ isInst a PyType.int = false) ∨
      (isNone b = false ∧ isInst b PyType.int = false) →
      check_from_dataset ⟨.vnone, .vtuple [a, b], .vnone, .vnone,
          .vbool true⟩ =
        .error (.valueViolation
          "freq_range needs to be either None or a tuple of 2 integers or an int and a None.")) ∧
    (∀ fr : PyVal, (∀ xs, fr ≠ .vtuple xs) → fr ≠ .vnone →
      check_from_dataset ⟨.vnone, fr, .vnone, .vnone, .vbool true⟩ =
        .error (.typeViolation (typeCheckMsg "freq_range"))) := by
  refine ⟨rfl, rfl, rfl, rfl, ?_, ?_, ?_⟩
  · intro xs hxs
    rcases xs with _ | ⟨a, _ | ⟨b, _ | ⟨c, t⟩⟩⟩
    · rfl
    · rfl
    · exact absurd rfl hxs
    · rfl
  · intro a b h
    have hcond : ((!(isNone a) && !(isInst a PyType.int)) ||
        (!(isNone b) && !(isInst b PyType.int))) = true := by
      rcases h with ⟨h1, h2⟩ | ⟨h1, h2⟩ <;> simp [h1, h2]
    simp only [check_from_dataset, columnsCheck, freqRangeCheck, hcond]
    rfl
  · intro fr hnt hnn
    cases fr with
    | vnone => exact absurd rfl hnn
    | vtuple xs => exact absurd rfl (hnt xs)
    | vstr s => rfl
    | vint n => rfl
    | vbool b => rfl
    | vlist xs => rfl
    | vvocab => rfl

/-- Witness for claim C3: a 3-tuple freq_range, a string element, and a
non-tuple freq_range each raise the corresponding violation. -/
theorem claim_C3_witness :
    check_from_dataset ⟨.vnone, .vtuple [.vint 1, .vint 2, .vint 3],
        .vnone, .vnone, .vbool true⟩ =
      .error (.valueViolation
        "freq_range needs to be a tuple of 2 integers or an int and a None.") ∧
    check_from_dataset ⟨.vnone, .vtuple [.vstr "x", .vint 5], .vnone,
        .vnone, .vbool true⟩ =
      .error (.valueViolation
        "freq_range needs to be either None or a tuple of 2 integers or an int and a None.") ∧
    check_from_dataset ⟨.vnone, .vint 7, .vnone, .vnone, .vbool true⟩ =
      .error (.typeViolation (typeCheckMsg "freq_range")) :=
  ⟨claim_C3.2.2.2.2.1 [.vint 1, .vint 2, .vint 3] (by decide),
    claim_C3.2.2.2.2.2.1 (.vstr "x") (.vint 5) (Or.inl ⟨rfl, rfl⟩),
    claim_C3.2.2.2.2.2.2 (.vint 7) (fun _ hx => nomatch hx)
      (fun hx => nomatch hx)⟩

/-- Claim C5 counterexample: a list-valued `columns` whose element is
not text passes `check_from_dataset` and the bundle handed to the
wrapped operation is the original one — contradicting the claim that
every element is checked to be text and that a normalized sequence is
forwarded. -/
theorem claim_C5_counterexample :
    check_from_dataset ⟨.vlist [.vint 1], .vnone, .vnone, .vnone,
        .vbool true⟩ =
      .ok ⟨.vlist [.vint 1], .vnone, .vnone, .vnone, .vbool true⟩ := rfl

/-- Claim C5 as amended: a scalar (non-None, non-list) column name is
wrapped locally and its single element type-checked as text under the
generated name `col_0`; a list-valued `columns` has its elements left
unchecked; and in every passing case the original, un-normalized bundle
is what reaches the wrapped operation. -/
theorem claim_C5_amended :
    (∀ c : PyVal, (∀ xs, c ≠ .vlist xs) → c ≠ .vnone →
      check_from_dataset ⟨c, .vnone, .vnone, .vnone, .vbool true⟩ =
        (if isInst c PyType.str then
          .ok ⟨c, .vnone, .vnone, .vnone, .vbool true⟩
         else .error (.typeViolation (typeCheckMsg "col_0")))) ∧
    (∀ xs : List PyVal,
      check_from_dataset ⟨.vlist xs, .vnone, .vnone, .vnone,
          .vbool true⟩ =
        .ok ⟨.vlist xs, .vnone, .vnone, .vnone, .vbool true⟩) := by
  constructor
  · intro c hlist hnone
    cases c with
    | vnone => exact absurd rfl hnone
    | vlist xs => exact absurd rfl (hlist xs)
    | vstr s => rfl
    | vint n => rfl
    | vbool b => rfl
    | vtuple xs => rfl
    | vvocab => rfl
  · intro xs
    rfl

/-- Witness for the amended claim C5: an int scalar column name is
rejected under the generated name `col_0`. -/
theorem claim_C5_witness :
    check_from_dataset ⟨.vint 7, .vnone, .vnone, .vnone, .vbool true⟩ =
      .error (.typeViolation (typeCheckMsg "col_0")) :=
  (claim_C5_amended.1 (.vint 7) (fun _ hx => nomatch hx)
    (fun hx => nomatch hx)).trans rfl

/-- Claim C8: in `check_wordpiece_tokenizer`, `max_bytes_per_token = -1`
raises a `ValueError` while `0` passes; a missing `vocab` raises, a
wrongly-typed `vocab` raises; non-text `suffix_indicator` or
`unknown_token` and non-boolean `with_offsets` raise. -/
theorem claim_C8 :
    check_wordpiece_tokenizer .vvocab (.vstr "##") (.vint (-1))
        (.vstr "[UNK]") (.vbool false) =
      .error (.valueViolation
        "Input value is not within the required interval of (0 to 4294967295).") ∧
    check_wordpiece_tokenizer .vvocab (.vstr "##") (.vint 0)
        (.vstr "[UNK]") (.vbool false) = .ok () ∧
    (∀ s m u w : PyVal,
      check_wordpiece_tokenizer .vnone s m u w =
        .error (.valueViolation "vocab is not provided.")) ∧
    (∀ v : PyVal, isNone v = false → isInst v PyType.vocabT = false →
      ∀ s m u w : PyVal,
      check_wordpiece_tokenizer v s m u w =
        .error (.typeViolation
          "Wrong input type for vocab, should be Vocab object.")) ∧
    (∀ s : PyVal, isInst s PyType.str = false → ∀ m u w : PyVal,
      check_wordpiece_tokenizer .vvocab s m u w =
        .error (.typeViolation
          "Wrong input type for suffix_indicator, should be string.")) ∧
    (∀ u : PyVal, isInst u PyType.str = false → ∀ m w : PyVal,
      check_wordpiece_tokenizer .vvocab (.vstr "##") m u w =
        .error (.typeViolation
          "Wrong input type for unknown_token, should be string.")) ∧
    (∀ w : PyVal, isInst w PyType.bool = false → ∀ m : PyVal,
      check_wordpiece_tokenizer .vvocab (.vstr "##") m (.vstr "[UNK]") w =
        .error (.typeViolation
          "Wrong input type for with_offsets, should be boolean.")) := by
  refine ⟨by rfl, rfl, ?_, ?_, ?_, ?_, ?_⟩
  · intro s m u w
    rfl
  · intro v hv1 hv2 s m u w
    simp only [check_wordpiece_tokenizer, hv1, hv2]
    rfl
  · intro s hs m u w
    simp only [check_wordpiece_tokenizer, hs]
    rfl
  · intro u hu m w
    simp only [check_wordpiece_tokenizer, hu]
    rfl
  · intro w hw m
    simp only [check_wordpiece_tokenizer, hw]
    rfl

/-- Witness for claim C8: an int `vocab` and an int `suffix_indicator`
each raise their `TypeError`. -/
theorem claim_C8_witness :
    check_wordpiece_tokenizer (.vint 3) (.vstr "##") (.vint 0)
        (.vstr "[UNK]") (.vbool true) =
      .error (.typeViolation
        "Wrong input type for vocab, should be Vocab object.") ∧
    check_wordpiece_tokenizer .vvocab (.vint 1) (.vint 0)
        (.vstr "[UNK]") (.vbool true) =
      .error (.typeViolation
        "Wrong input type for suffix_indicator, should be string.") :=
  ⟨claim_C8.2.2.2.1 (.vint 3) rfl rfl (.vstr "##") (.vint 0)
      (.vstr "[UNK]") (.vbool true),
    claim_C8.2.2.2.2.1 (.vint 1) rfl (.vint 0) (.vstr "[UNK]")
      (.vbool true)⟩

theorem check_ngram_vlist (g : PyVal) (gs : List PyVal) (lp rp sep : PyVal) :
    check_ngram ⟨PyVal.vlist (g :: gs), lp, rp, sep⟩ =
      (match gramsCheck (g :: gs) 0 with
       | .error e => .error e
       | .ok _ =>
         match padCheck lp leftPadMsg with
         | .error e => .error e
         | .ok _ =>
           match padCheck rp rightPadMsg with
           | .error e => .error e
           | .ok _ =>
             if !(padWidth lp ≥ 0 && padWidth rp ≥ 0) then
               .error (.valueViolation
                 "padding width need to be positive numbers.")
             else
               match type_check sep [PyType.str] "separator" with
               | .error e => .error e
               | .ok _ => .ok ⟨PyVal.vlist (g :: gs), lp, rp, sep⟩) := rfl

/-- Claim C9: `check_ngram` is a pure function of its bundle, and its
normalization is stable — running the guard on the normalized bundle it
forwards yields that same normalized bundle again: the same pass/fail
outcome and the same bundle both times. -/
theorem claim_C9 (a b : NgramArgs) (h : check_ngram a = .ok b) :
    check_ngram b = .ok b := by
  unfold check_ngram at h
  generalize (if isInst a.n PyType.int then PyVal.vlist [a.n] else a.n) = m
    at h
  cases m with
  | vstr s => simp at h
  | vint n => simp at h
  | vbool c => simp at h
  | vnone => simp at h
  | vtuple xs => simp at h
  | vvocab => simp at h
  | vlist xs =>
    cases xs with
    | nil => simp at h
    | cons g gs =>
      dsimp only at h
      cases hgc : gramsCheck (g :: gs) 0 with
      | error e => rw [hgc] at h; simp at h
      | ok u =>
        rw [hgc] at h
        cases hlp : padCheck a.left_pad leftPadMsg with
        | error e => rw [hlp] at h; simp at h
        | ok u2 =>
          rw [hlp] at h
          cases hrp : padCheck a.right_pad rightPadMsg with
          | error e => rw [hrp] at h; simp at h
          | ok u3 =>
            rw [hrp] at h
            cases hw : (!(padWidth a.left_pad ≥ 0 &&
                padWidth a.right_pad ≥ 0)) with
            | true => simp [hw] at h
            | false =>
              simp only [hw] at h
              cases hs : type_check a.separator [PyType.str]
                  "separator" with
              | error e => rw [hs] at h; simp at h
              | ok u4 =>
                rw [hs] at h
                simp only [Bool.false_eq_true, if_false] at h
                injection h with hb
                subst hb
                rw [check_ngram_vlist, hgc, hlp, hrp]
                simp [hw, hs]

/-- Witness for claim C9: the guard maps the bundle with `n = 3` to the
normalized bundle with `n = [3]`, which the guard then fixes. -/
theorem claim_C9_witness :
    check_ngram ⟨.vlist [.vint 3], .vtuple [.vstr "<s>", .vint 2],
        .vtuple [.vstr "</s>", .vint 1], .vstr "-"⟩ =
      .ok ⟨.vlist [.vint 3], .vtuple [.vstr "<s>", .vint 2],
        .vtuple [.vstr "</s>", .vint 1], .vstr "-"⟩ :=
  claim_C9 ⟨.vint 3, .vtuple [.vstr "<s>", .vint 2],
    .vtuple [.vstr "</s>", .vint 1], .vstr "-"⟩ _ rfl

end TextValidators
